import Mathlib

/-!
Shallow embedding of the client-side theme toggle of the astro-blog
repository (the inline script of the theme-toggle component,
`src/unnamed/part_001`, lines 42-188), together with proofs of the
specified properties of the Theme Preference Controller.

The script manipulates:
  * the `dark` class on `document.documentElement` (a single boolean flag);
  * the `localStorage` key `theme`, holding `"light"` or `"dark"` or absent;
  * it reads `window.matchMedia('(prefers-color-scheme: dark)').matches`
    (the live OS-level color-scheme signal);
  * it dispatches `themeChanged` custom events with payload `{isDark: Bool}`;
  * cosmetic state: the `.theme-switch-overlay` element and its opacity,
    the `theme-switching` class, a ripple element, and the `--x`/`--y`
    CSS variables seeding the radial animation.
-/

/-- A theme mode, the two possible values of the persisted `theme` key. -/
inductive Mode where
  | light
  | dark
deriving Repr, DecidableEq

/-- `true` exactly when the mode is `dark` (the test `=== 'dark'`
used throughout the script). -/
def modeIsDark : Mode → Bool
  | Mode.light => false
  | Mode.dark => true

/-- The opposite mode (`isDark ? 'light' : 'dark'`). -/
def oppositeOf : Bool → Mode
  | true => Mode.light
  | false => Mode.dark

/-- The observable state touched by the theme-toggle script.

`documentDark` is the presence of the `dark` class on
`document.documentElement`; `stored` is the `localStorage` item `theme`
(`none` when absent); `osDark` is the live OS color-scheme signal
(`none` when the environment does not expose it, in which case
`matchMedia(...).matches` reads as `false`); `events` records the
`isDark` payloads of the dispatched `themeChanged` events, in order.
The remaining fields are cosmetic: existence and visibility of the
transition overlay, the `theme-switching` class, the ripple element,
and the `--x`/`--y` CSS variables. -/
structure ThemeState where
  documentDark : Bool
  stored : Option Mode
  osDark : Option Bool
  events : List Bool
  overlayExists : Bool
  overlayVisible : Bool
  themeSwitching : Bool
  rippleActive : Bool
  varX : Int
  varY : Int
deriving Repr, DecidableEq

/-- The effective mode of the spec glossary: the explicit stored
preference if present, else the mode given by the live OS-level
color-scheme signal (light when the signal is unavailable). -/
def effectiveMode (s : ThemeState) : Mode :=
  match s.stored with
  | some m => m
  | none => if s.osDark.getD false then Mode.dark else Mode.light

/-- The load-time portion of `setupThemeToggle` (lines 44-67):
read `prefersDarkMode` from `matchMedia`, compute
`currentTheme = localStorage.getItem('theme') || (prefersDarkMode ? 'dark' : 'light')`,
add or remove the `dark` class accordingly, and create the
`.theme-switch-overlay` element if it does not exist yet.
This is the spec operation named `initialize()`. -/
def initTheme (s : ThemeState) : ThemeState :=
  let prefersDarkMode := s.osDark.getD false
  let currentTheme := s.stored.getD (if prefersDarkMode then Mode.dark else Mode.light)
  let s1 := { s with documentDark := currentTheme = Mode.dark }
  if s1.overlayExists then s1 else { s1 with overlayExists := true, overlayVisible := false }

/-- The click/touchend handler body up to the point where the two
timeouts are scheduled (lines 73-116): set the `--x`/`--y` variables
from the interaction point, capture `isDark` from the current document
flag, compute `newTheme` as its opposite, show the overlay (when it
exists), add the `theme-switching` class and the ripple element.
Returns the updated state together with the captured `isDark` and
`newTheme` values the scheduled callbacks close over. -/
def toggleClick (s : ThemeState) (x y : Int) : ThemeState × Bool × Mode :=
  let isDark := s.documentDark
  let newTheme := oppositeOf isDark
  let s1 := { s with
    varX := x
    varY := y
    overlayVisible := if s.overlayExists then true else s.overlayVisible
    themeSwitching := true
    rippleActive := true }
  (s1, isDark, newTheme)

/-- The first scheduled callback of the handler (lines 118-131, the
50 ms timeout): remove the `dark` class if the captured `isDark` was
true, add it otherwise; store `newTheme` under the `theme` key; and
dispatch a `themeChanged` event with `{isDark: newTheme === 'dark'}`. -/
def toggleDelay1 (s : ThemeState) (isDark : Bool) (newTheme : Mode) : ThemeState :=
  { s with
    documentDark := if isDark then false else true
    stored := some newTheme
    events := s.events ++ [modeIsDark newTheme] }

/-- The second scheduled callback (lines 137-145, the nested 300 ms
timeout): hide the overlay (when it exists), remove the
`theme-switching` class and the ripple element. -/
def toggleDelay2 (s : ThemeState) : ThemeState :=
  { s with
    overlayVisible := if s.overlayExists then false else s.overlayVisible
    themeSwitching := false
    rippleActive := false }

/-- `toggle(originPoint)` run to completion: the click handler followed
by both scheduled callbacks, with no interleaved events. -/
def toggle (s : ThemeState) (x y : Int) : ThemeState :=
  match toggleClick s x y with
  | (s1, isDark, newTheme) => toggleDelay2 (toggleDelay1 s1 isDark newTheme)

/-- The state right after the first scheduled delay of a toggle fires
(before the second, cosmetic callback runs). -/
def toggleAfterFirstDelay (s : ThemeState) (x y : Int) : ThemeState :=
  match toggleClick s x y with
  | (s1, isDark, newTheme) => toggleDelay1 s1 isDark newTheme

/-- The `matchMedia('(prefers-color-scheme: dark)')` change listener
(lines 179-187), invoked when the live OS signal changes to `b` (the
event field `matches`): the signal itself now reads `b`, and the
listener adds or removes the `dark` class only when no `theme` key is
stored. This is the spec operation `onSystemPreferenceChange(isDark)`. -/
def onSystemPreferenceChange (s : ThemeState) (b : Bool) : ThemeState :=
  let s1 := { s with osDark := some b }
  if s1.stored = none then { s1 with documentDark := b } else s1

/-- The `visibilitychange` listener (lines 167-176) when the document
becomes visible: re-read the `theme` key; add the `dark` class if it is
`"dark"`, remove it if it is `"light"`, do nothing if it is absent.
This is the spec operation `onVisibilityRestored()`. -/
def onVisibilityRestored (s : ThemeState) : ThemeState :=
  match s.stored with
  | some Mode.dark => { s with documentDark := true }
  | some Mode.light => { s with documentDark := false }
  | none => s

/-- States reachable by the controller: some load-time run of
`initTheme` from an arbitrary environment, followed by any sequence of
completed toggles, OS-signal changes and visibility restorations. -/
inductive Reachable : ThemeState → Prop where
  | loaded (s : ThemeState) : Reachable (initTheme s)
  | reloaded (s : ThemeState) : Reachable s → Reachable (initTheme s)
  | toggled (s : ThemeState) (x y : Int) : Reachable s → Reachable (toggle s x y)
  | sysChanged (s : ThemeState) (b : Bool) :
      Reachable s → Reachable (onSystemPreferenceChange s b)
  | visRestored (s : ThemeState) : Reachable s → Reachable (onVisibilityRestored s)

/-- A state whose effective mode is light (stored preference `light`)
but whose document flag was externally forced to dark. -/
def c1Bad : ThemeState :=
  ⟨true, some Mode.light, some false, [], true, false, false, false, 0, 0⟩

/-- A light state used to instantiate the amended toggle claim. -/
def c1Light : ThemeState :=
  ⟨false, some Mode.light, some false, [], true, false, false, false, 0, 0⟩

/-- A state with an explicit dark preference persisted. -/
def c3S : ThemeState :=
  ⟨true, some Mode.dark, some false, [], true, false, false, false, 0, 0⟩

/-- A freshly loaded environment: no stored preference, OS reporting dark. -/
def c4Base : ThemeState :=
  ⟨false, none, some true, [], false, false, false, false, 0, 0⟩

/-- A light state with no persisted preference. -/
def c5Init : ThemeState :=
  ⟨false, none, some false, [], true, false, false, false, 0, 0⟩

/-- A state with persisted preference `light` whose document flag was
externally forced to dark. -/
def c6S : ThemeState :=
  ⟨true, some Mode.light, some true, [], true, false, false, false, 0, 0⟩

/-- An environment with no stored preference and the OS reporting dark. -/
def c7S : ThemeState :=
  ⟨false, none, some true, [], false, false, false, false, 0, 0⟩

/-- A dark-flagged state with no persisted preference and OS reporting light. -/
def c10S : ThemeState :=
  ⟨true, none, some false, [], true, false, false, false, 0, 0⟩

/-! ### Helper lemmas about the operations -/

theorem initTheme_documentDark (s : ThemeState) :
    (initTheme s).documentDark =
      decide (s.stored.getD (if s.osDark.getD false then Mode.dark else Mode.light)
        = Mode.dark) := by
  rcases s with ⟨d, st, os, ev, oe, ov, ts, ra, x, y⟩
  cases oe <;> rfl

theorem initTheme_stored (s : ThemeState) : (initTheme s).stored = s.stored := by
  rcases s with ⟨d, st, os, ev, oe, ov, ts, ra, x, y⟩
  cases oe <;> rfl

theorem initTheme_osDark (s : ThemeState) : (initTheme s).osDark = s.osDark := by
  rcases s with ⟨d, st, os, ev, oe, ov, ts, ra, x, y⟩
  cases oe <;> rfl

theorem initTheme_events (s : ThemeState) : (initTheme s).events = s.events := by
  rcases s with ⟨d, st, os, ev, oe, ov, ts, ra, x, y⟩
  cases oe <;> rfl

theorem effectiveMode_getD (s : ThemeState) :
    effectiveMode s =
      s.stored.getD (if s.osDark.getD false then Mode.dark else Mode.light) := by
  unfold effectiveMode
  cases s.stored <;> rfl

theorem decide_eq_dark (m : Mode) : decide (m = Mode.dark) = modeIsDark m := by
  cases m <;> rfl

theorem initTheme_idem (s : ThemeState) : initTheme (initTheme s) = initTheme s := by
  rcases s with ⟨d, st, os, ev, oe, ov, ts, ra, x, y⟩
  cases oe <;> rfl

theorem iterate_initTheme (s : ThemeState) (n : Nat) :
    Nat.iterate initTheme (n + 1) s = initTheme s := by
  induction n with
  | zero => rfl
  | succ k ih => rw [Function.iterate_succ_apply', ih, initTheme_idem]

/-! ### The claims -/

/-- C1 (counterexample): in a state whose effective mode is light (the
stored preference is `"light"`) but whose document flag was externally
forced to dark, a completed toggle yields effective mode light,
persisted value `"light"`, and an event with `{isDark: false}` — the
handler computes the new mode from the document flag, not from the
effective mode. -/
theorem C1_counterexample :
    effectiveMode c1Bad = Mode.light ∧
    ¬ (effectiveMode (toggle c1Bad 0 0) = Mode.dark ∧
       (toggle c1Bad 0 0).stored = some Mode.dark ∧
       (toggle c1Bad 0 0).events = [true]) := by decide

/-- C1 (amended): for every state in which the document flag is clear
(the rendered mode is light), a completed `toggle(originPoint)` sets
the document flag, yields effective mode dark, persists `"dark"`, and
emits exactly one `themeChanged` event with payload `{isDark: true}`. -/
theorem C1_toggle_from_light (s : ThemeState) (x y : Int)
    (h : s.documentDark = false) :
    (toggle s x y).documentDark = true ∧
    effectiveMode (toggle s x y) = Mode.dark ∧
    (toggle s x y).stored = some Mode.dark ∧
    (toggle s x y).events = s.events ++ [true] := by
  simp [toggle, toggleClick, toggleDelay1, toggleDelay2, oppositeOf, modeIsDark,
    effectiveMode, h]

/-- C1 (witness): the amended toggle claim at a concrete light state. -/
theorem C1_witness :
    c1Light.documentDark = false ∧
    ((toggle c1Light 0 0).documentDark = true ∧
     effectiveMode (toggle c1Light 0 0) = Mode.dark ∧
     (toggle c1Light 0 0).stored = some Mode.dark ∧
     (toggle c1Light 0 0).events = c1Light.events ++ [true]) :=
  ⟨rfl, C1_toggle_from_light c1Light 0 0 rfl⟩

/-- C2: `initialize()` sets the document flag to the stored preference
when one is present, otherwise to the OS-level dark/light signal, and
to light (flag clear) when both are unavailable; being a total
function, it has no error conditions. -/
theorem C2_init_flag (s : ThemeState) :
    ((initTheme s).documentDark =
      match s.stored with
      | some m => modeIsDark m
      | none => s.osDark.getD false) ∧
    (initTheme { s with stored := none, osDark := none }).documentDark = false := by
  constructor
  · rw [initTheme_documentDark]
    rcases s.stored with _ | m
    · cases hos : s.osDark.getD false <;> simp [hos]
    · cases m <;> rfl
  · rw [initTheme_documentDark]
    rfl

/-- C3: once a preference is persisted, an OS-level preference change
(either value) leaves the document flag, the persisted value and the
effective mode unchanged. -/
theorem C3_explicit_precedence (s : ThemeState) (m : Mode) (b : Bool)
    (h : s.stored = some m) :
    (onSystemPreferenceChange s b).documentDark = s.documentDark ∧
    (onSystemPreferenceChange s b).stored = s.stored ∧
    effectiveMode (onSystemPreferenceChange s b) = effectiveMode s := by
  simp [onSystemPreferenceChange, effectiveMode, h]

/-- C3 (witness): a concrete state with a persisted dark preference is
unaffected by the OS signal switching. -/
theorem C3_witness :
    c3S.stored = some Mode.dark ∧
    ((onSystemPreferenceChange c3S true).documentDark = c3S.documentDark ∧
     (onSystemPreferenceChange c3S true).stored = c3S.stored ∧
     effectiveMode (onSystemPreferenceChange c3S true) = effectiveMode c3S) :=
  ⟨rfl, C3_explicit_precedence c3S Mode.dark true rfl⟩

/-- C4: in every reachable state — after the load-time run and after
every completed toggle, OS-signal change and visibility restoration —
the document flag equals the effective mode (stored preference if
present, else the live OS signal). -/
theorem C4_flag_matches_effective (s : ThemeState) (h : Reachable s) :
    s.documentDark = modeIsDark (effectiveMode s) := by
  induction h with
  | loaded t =>
      rw [initTheme_documentDark, effectiveMode_getD, initTheme_stored, initTheme_osDark,
        ← effectiveMode_getD, decide_eq_dark]
  | reloaded t _ _ =>
      rw [initTheme_documentDark, effectiveMode_getD, initTheme_stored, initTheme_osDark,
        ← effectiveMode_getD, decide_eq_dark]
  | toggled t x y _ _ =>
      cases hd : t.documentDark <;>
        simp [toggle, toggleClick, toggleDelay1, toggleDelay2, oppositeOf,
          effectiveMode, modeIsDark, hd]
  | sysChanged t b _ ih =>
      rcases hst : t.stored with _ | m
      · cases b <;> simp [onSystemPreferenceChange, hst, effectiveMode, modeIsDark]
      · simp [effectiveMode, hst] at ih
        simp [onSystemPreferenceChange, hst, effectiveMode]
        exact ih
  | visRestored t _ ih =>
      rcases hst : t.stored with _ | m
      · simpa [onVisibilityRestored, hst] using ih
      · cases m <;> simp [onVisibilityRestored, hst, effectiveMode, modeIsDark]

/-- C4 (witness): the invariant at the concrete state reached by a
load-time run from a fresh environment. -/
theorem C4_witness :
    Reachable (initTheme c4Base) ∧
    (initTheme c4Base).documentDark = modeIsDark (effectiveMode (initTheme c4Base)) :=
  ⟨Reachable.loaded c4Base,
    C4_flag_matches_effective (initTheme c4Base) (Reachable.loaded c4Base)⟩

/-- C5 (counterexample): from a light state with no persisted
preference, two completed toggles return the document flag but leave
the persisted value at `"light"` rather than restoring its original
absent state. -/
theorem C5_counterexample :
    ¬ ((toggle (toggle c5Init 0 0) 0 0).documentDark = c5Init.documentDark ∧
       (toggle (toggle c5Init 0 0) 0 0).stored = c5Init.stored) := by decide

/-- C5 (amended): two completed toggles always return the document
flag to its original value and leave the persisted value equal to the
mode matching the original flag — so the persisted value round-trips
exactly when such a preference was already persisted, and not when no
preference was persisted. -/
theorem C5_round_trip (s : ThemeState) (x1 y1 x2 y2 : Int) :
    (toggle (toggle s x1 y1) x2 y2).documentDark = s.documentDark ∧
    (toggle (toggle s x1 y1) x2 y2).stored
      = some (if s.documentDark then Mode.dark else Mode.light) := by
  cases hd : s.documentDark <;>
    simp [toggle, toggleClick, toggleDelay1, toggleDelay2, oppositeOf, hd]

/-- C6: when the document flag disagrees with a persisted preference,
a visibility restoration rewrites the flag to the persisted preference
and leaves the preference itself untouched. -/
theorem C6_visibility_restores (s : ThemeState) (m : Mode)
    (hm : s.stored = some m) (hne : s.documentDark ≠ modeIsDark m) :
    (onVisibilityRestored s).documentDark = modeIsDark m ∧
    (onVisibilityRestored s).stored = s.stored := by
  unfold onVisibilityRestored
  rw [hm]
  cases m <;> simp [modeIsDark]

/-- C6 (witness): a dark-forced flag with persisted preference
`"light"` is restored to light. -/
theorem C6_witness :
    c6S.stored = some Mode.light ∧ c6S.documentDark ≠ modeIsDark Mode.light ∧
    ((onVisibilityRestored c6S).documentDark = modeIsDark Mode.light ∧
     (onVisibilityRestored c6S).stored = c6S.stored) :=
  ⟨rfl, by decide, C6_visibility_restores c6S Mode.light rfl (by decide)⟩

/-- C7: with no stored preference and the OS signal reporting dark,
`initialize()` sets the document flag and writes nothing — the stored
key stays absent and no event is emitted. -/
theorem C7_default_fallback (s : ThemeState)
    (h1 : s.stored = none) (h2 : s.osDark = some true) :
    (initTheme s).documentDark = true ∧
    (initTheme s).stored = none ∧
    (initTheme s).events = s.events := by
  refine ⟨?_, ?_, initTheme_events s⟩
  · rw [initTheme_documentDark, h1, h2]
    rfl
  · rw [initTheme_stored, h1]

/-- C7 (witness): the default fallback at a concrete fresh dark-OS
environment. -/
theorem C7_witness :
    c7S.stored = none ∧ c7S.osDark = some true ∧
    ((initTheme c7S).documentDark = true ∧
     (initTheme c7S).stored = none ∧
     (initTheme c7S).events = c7S.events) :=
  ⟨rfl, rfl, C7_default_fallback c7S rfl rfl⟩

/-- C8: for a fixed stored/OS state, any positive number of
`initialize()` runs yields the same document flag as a single run. -/
theorem C8_init_idempotent (s : ThemeState) (n : Nat) :
    (Nat.iterate initTheme (n + 1) s).documentDark = (initTheme s).documentDark := by
  rw [iterate_initTheme]

/-- C9: right after the first scheduled delay of a toggle fires, the
persisted value is `"dark"` exactly when the document flag is set, the
toggle has emitted exactly one event whose payload equals the flag,
and the flag is the negation of its value at click time — whatever
preference was stored, so an externally mutated flag, not the stored
preference, determines the new mode. -/
theorem C9_first_delay_agreement (s : ThemeState) (x y : Int) :
    ((toggleAfterFirstDelay s x y).stored = some Mode.dark ↔
      (toggleAfterFirstDelay s x y).documentDark = true) ∧
    (toggleAfterFirstDelay s x y).events
      = s.events ++ [(toggleAfterFirstDelay s x y).documentDark] ∧
    (toggleAfterFirstDelay s x y).documentDark = !s.documentDark := by
  cases hd : s.documentDark <;>
    simp [toggleAfterFirstDelay, toggleClick, toggleDelay1, oppositeOf, modeIsDark, hd]

/-- C10: with no persisted preference, a visibility restoration is a
no-op: it neither touches the document flag nor falls back to the OS
signal. -/
theorem C10_vis_no_pref (s : ThemeState) (h : s.stored = none) :
    onVisibilityRestored s = s := by
  unfold onVisibilityRestored
  rw [h]

/-- C10 (witness): a dark-forced flag with no stored preference and a
light OS signal is left untouched. -/
theorem C10_witness :
    c10S.stored = none ∧ onVisibilityRestored c10S = c10S :=
  ⟨rfl, C10_vis_no_pref c10S rfl⟩
